import Mathlib

/-!
Shallow embedding of src/examples/hrtf_mesh_grading.cpp, the command-line
tool of the hrtf_mesh_grading fork of the pmp-library.

Modelling conventions:
* C floating point values are modelled as rationals; the decimal literals
  1e-6, 1.9, 0.15 and 2.0 of the source become the exact rationals
  1/1000000, 19/10, 3/20 and 2.
* The external pmp collaborators (pmp::read, pmp::uniform_remeshing,
  pmp::write) are modelled as a World record of abstract functions over an
  abstract mesh type M; a read failure (pmp::IOException) is none, a write
  failure is writeOk returning false.
* In the source the locals are declared as: float min, max, err = 0; only
  err carries an initializer, so the values of min and max when option -x
  or -y is absent are indeterminate.  parseArgs therefore takes the
  residual values as explicit junkMin and junkMax parameters.
* Calls to exit, the usage text, and the error messages are modelled by
  the RunResult record: the exit code, whether the usage text was printed,
  which reads and writes were attempted, every call made to a remeshing
  routine, the echoed effective parameter values, and the written mesh.
-/

namespace HrtfMeshGrading

/-- The threshold 1e-6 used by the argument checks on lines 111 and 117 of
the source. -/
def eps : ℚ := mkRat 1 1000000

/-- The command-line options of one invocation, one field per getopt
letter of the option string x:y:e:s:l:r:g:h:i:o:vb.  A field is none when
the option is absent from the command line. -/
structure Args where
  x : Option ℚ
  y : Option ℚ
  e : Option ℚ
  s : Option String
  l : Option ℚ
  r : Option ℚ
  g : Option ℚ
  h : Option ℚ
  i : Option String
  o : Option String
  v : Bool
  b : Bool

/-- The local variables of main after the getopt loop (lines 40-108).
min and max are uninitialized in the source, so a missing -x or -y leaves
the indeterminate residual value supplied to parseArgs. -/
structure ParsedState where
  min : ℚ
  max : ℚ
  err : ℚ
  channel_left : ℚ
  channel_right : ℚ
  gamma_scaling_left : ℚ
  gamma_scaling_right : ℚ
  ear : Option String
  input : Option String
  output : Option String
  verbose : Bool
  binary : Bool

/-- The getopt loop of main: each supplied option overwrites the
corresponding local; absent options leave the initial values
(err = 0, channels = 0, gamma factors = 2, pointers null) and leave min
and max indeterminate (junkMin, junkMax). -/
def parseArgs (a : Args) (junkMin junkMax : ℚ) : ParsedState :=
  { min := a.x.getD junkMin
    max := a.y.getD junkMax
    err := a.e.getD 0
    channel_left := a.l.getD 0
    channel_right := a.r.getD 0
    gamma_scaling_left := a.g.getD 2
    gamma_scaling_right := a.h.getD 2
    ear := a.s
    input := a.i
    output := a.o
    verbose := a.v
    binary := a.b }

/-- The arguments of the commented-out adaptive remeshing call
SurfaceRemeshing(mesh).adaptive_remeshing(min, max, err, 10U, true, ear,
channel_left, channel_right, gamma_scaling_left, gamma_scaling_right,
verbose) on lines 164-175 of the source. -/
structure AdaptiveArgs where
  minLen : ℚ
  maxLen : ℚ
  approxError : ℚ
  iterations : ℕ
  useProjection : Bool
  ear : String
  channel_left : ℚ
  channel_right : ℚ
  gamma_scaling_left : ℚ
  gamma_scaling_right : ℚ
  verbose : Bool

/-- The external pmp collaborators, over an abstract mesh type M.
readMesh returns none when pmp::read throws an IOException; writeOk
returns false when pmp::write throws.  uniform_remeshing takes the mesh,
the target edge length, the iteration count, and the use_projection
flag. -/
structure World (M : Type) where
  readMesh : String → Option M
  uniform_remeshing : M → ℚ → ℕ → Bool → M
  writeOk : M → String → Bool → Bool

/-- The observable outcome of one run of main: exit code, whether the
usage text was printed, whether the gamma factors were echoed by the
verbose block, the effective error and gamma values after defaulting
(none when the run exits at the argument check), the reads and writes
attempted, every remeshing call made, and the mesh written on success. -/
structure RunResult (M : Type) where
  exitCode : ℕ
  usagePrinted : Bool
  gammaEchoed : Bool
  errVal : Option ℚ
  gammaLeftVal : Option ℚ
  gammaRightVal : Option ℚ
  readsAttempted : List String
  remeshCalls : List (ℚ × ℕ × Bool)
  adaptiveCalls : List AdaptiveArgs
  writesAttempted : List (String × Bool)
  outputMesh : Option M
  errorMessage : Option String

/-- The outcome of usage_and_exit (lines 11-36): the usage text is
printed and the process exits with code 1 before any further work. -/
def usage_and_exit (M : Type) : RunResult M :=
  { exitCode := 1
    usagePrinted := true
    gammaEchoed := false
    errVal := none
    gammaLeftVal := none
    gammaRightVal := none
    readsAttempted := []
    remeshCalls := []
    adaptiveCalls := []
    writesAttempted := []
    outputMesh := none
    errorMessage := none }

/-- Lines 116-202 of main, reached only when the argument check passed:
the defaulting of err and the gamma factors, the verbose echo, the mesh
read, the uniform remeshing call, and the mesh write.  input and output
are the two path strings, known to be non-null here. -/
def mainRunBody {M : Type} (w : World M) (s : ParsedState)
    (input output : String) : RunResult M :=
  let errv := if s.err < eps then s.min else s.err
  let gl := if s.gamma_scaling_left > mkRat 19 10 then mkRat 3 20
            else s.gamma_scaling_left
  let gr := if s.gamma_scaling_right > mkRat 19 10 then mkRat 3 20
            else s.gamma_scaling_right
  let gEcho := s.verbose && (decide (s.channel_left = 0) && decide (s.channel_right = 0))
  match w.readMesh input with
  | none =>
    { exitCode := 1
      usagePrinted := false
      gammaEchoed := gEcho
      errVal := some errv
      gammaLeftVal := some gl
      gammaRightVal := some gr
      readsAttempted := [input]
      remeshCalls := []
      adaptiveCalls := []
      writesAttempted := []
      outputMesh := none
      errorMessage := some "Failed to read mesh" }
  | some mesh =>
    let mesh2 := w.uniform_remeshing mesh s.min 10 true
    if w.writeOk mesh2 output s.binary then
      { exitCode := 0
        usagePrinted := false
        gammaEchoed := gEcho
        errVal := some errv
        gammaLeftVal := some gl
        gammaRightVal := some gr
        readsAttempted := [input]
        remeshCalls := [(s.min, 10, true)]
        adaptiveCalls := []
        writesAttempted := [(output, s.binary)]
        outputMesh := some mesh2
        errorMessage := none }
    else
      { exitCode := 1
        usagePrinted := false
        gammaEchoed := gEcho
        errVal := some errv
        gammaLeftVal := some gl
        gammaRightVal := some gr
        readsAttempted := [input]
        remeshCalls := [(s.min, 10, true)]
        adaptiveCalls := []
        writesAttempted := [(output, s.binary)]
        outputMesh := none
        errorMessage := some "Failed to write mesh" }

/-- The body of main after the getopt loop (lines 110-202): the argument
check on line 111, then mainRunBody. -/
def mainRun {M : Type} (w : World M) (s : ParsedState) : RunResult M :=
  if s.min < eps ∨ s.max < eps ∨ s.ear = none ∨ s.input = none ∨ s.output = none then
    usage_and_exit M
  else
    match s.input, s.output with
    | some input, some output => mainRunBody w s input output
    | _, _ => usage_and_exit M

/-- An invocation is valid when both edge lengths are supplied and pass
the 1e-6 check and the side, input and output options are present: exactly
the complement of the condition on line 111 of the source, restricted to
supplied values. -/
def validArgs (a : Args) : Bool :=
  match a.x, a.y with
  | some mn, some mx =>
      decide (eps ≤ mn) && decide (eps ≤ mx) && a.s.isSome && a.i.isSome && a.o.isSome
  | _, _ => false

/-! Helper lemmas characterizing the three terminal branches of
mainRunBody and the field values they produce. -/

lemma mainRunBody_read_fail {M : Type} (w : World M) (s : ParsedState)
    (input output : String) (hr : w.readMesh input = none) :
    mainRunBody w s input output =
      { exitCode := 1
        usagePrinted := false
        gammaEchoed := s.verbose &&
          (decide (s.channel_left = 0) && decide (s.channel_right = 0))
        errVal := some (if s.err < eps then s.min else s.err)
        gammaLeftVal := some (if s.gamma_scaling_left > mkRat 19 10 then mkRat 3 20
                              else s.gamma_scaling_left)
        gammaRightVal := some (if s.gamma_scaling_right > mkRat 19 10 then mkRat 3 20
                               else s.gamma_scaling_right)
        readsAttempted := [input]
        remeshCalls := []
        adaptiveCalls := []
        writesAttempted := []
        outputMesh := none
        errorMessage := some "Failed to read mesh" } := by
  unfold mainRunBody
  rw [hr]

lemma mainRunBody_success {M : Type} (w : World M) (s : ParsedState)
    (input output : String) (m : M) (hr : w.readMesh input = some m)
    (hw : w.writeOk (w.uniform_remeshing m s.min 10 true) output s.binary = true) :
    mainRunBody w s input output =
      { exitCode := 0
        usagePrinted := false
        gammaEchoed := s.verbose &&
          (decide (s.channel_left = 0) && decide (s.channel_right = 0))
        errVal := some (if s.err < eps then s.min else s.err)
        gammaLeftVal := some (if s.gamma_scaling_left > mkRat 19 10 then mkRat 3 20
                              else s.gamma_scaling_left)
        gammaRightVal := some (if s.gamma_scaling_right > mkRat 19 10 then mkRat 3 20
                               else s.gamma_scaling_right)
        readsAttempted := [input]
        remeshCalls := [(s.min, 10, true)]
        adaptiveCalls := []
        writesAttempted := [(output, s.binary)]
        outputMesh := some (w.uniform_remeshing m s.min 10 true)
        errorMessage := none } := by
  unfold mainRunBody
  rw [hr]
  simp only [hw, if_true]

lemma mainRunBody_write_fail {M : Type} (w : World M) (s : ParsedState)
    (input output : String) (m : M) (hr : w.readMesh input = some m)
    (hw : w.writeOk (w.uniform_remeshing m s.min 10 true) output s.binary = false) :
    mainRunBody w s input output =
      { exitCode := 1
        usagePrinted := false
        gammaEchoed := s.verbose &&
          (decide (s.channel_left = 0) && decide (s.channel_right = 0))
        errVal := some (if s.err < eps then s.min else s.err)
        gammaLeftVal := some (if s.gamma_scaling_left > mkRat 19 10 then mkRat 3 20
                              else s.gamma_scaling_left)
        gammaRightVal := some (if s.gamma_scaling_right > mkRat 19 10 then mkRat 3 20
                               else s.gamma_scaling_right)
        readsAttempted := [input]
        remeshCalls := [(s.min, 10, true)]
        adaptiveCalls := []
        writesAttempted := [(output, s.binary)]
        outputMesh := none
        errorMessage := some "Failed to write mesh" } := by
  unfold mainRunBody
  rw [hr]
  simp only [hw, Bool.false_eq_true, if_false]

lemma mainRun_usage {M : Type} (w : World M) (s : ParsedState)
    (h : s.min < eps ∨ s.max < eps ∨ s.ear = none ∨ s.input = none ∨ s.output = none) :
    mainRun w s = usage_and_exit M := by
  unfold mainRun
  rw [if_pos h]

lemma mainRun_eq_body {M : Type} (w : World M) (s : ParsedState) (ii oo : String)
    (hm : eps ≤ s.min) (hM : eps ≤ s.max) (hear : s.ear ≠ none)
    (hi : s.input = some ii) (ho : s.output = some oo) :
    mainRun w s = mainRunBody w s ii oo := by
  have hg : ¬(s.min < eps ∨ s.max < eps ∨ s.ear = none ∨ s.input = none ∨
      s.output = none) := by
    push_neg
    exact ⟨hm, hM, hear, by simp [hi], by simp [ho]⟩
  unfold mainRun
  rw [if_neg hg, hi, ho]

lemma mainRunBody_errVal {M : Type} (w : World M) (s : ParsedState)
    (input output : String) :
    (mainRunBody w s input output).errVal =
      some (if s.err < eps then s.min else s.err) := by
  cases hr : w.readMesh input with
  | none => rw [mainRunBody_read_fail w s input output hr]
  | some m =>
    cases hw : w.writeOk (w.uniform_remeshing m s.min 10 true) output s.binary with
    | true => rw [mainRunBody_success w s input output m hr hw]
    | false => rw [mainRunBody_write_fail w s input output m hr hw]

lemma mainRunBody_gammaLeftVal {M : Type} (w : World M) (s : ParsedState)
    (input output : String) :
    (mainRunBody w s input output).gammaLeftVal =
      some (if s.gamma_scaling_left > mkRat 19 10 then mkRat 3 20
            else s.gamma_scaling_left) := by
  cases hr : w.readMesh input with
  | none => rw [mainRunBody_read_fail w s input output hr]
  | some m =>
    cases hw : w.writeOk (w.uniform_remeshing m s.min 10 true) output s.binary with
    | true => rw [mainRunBody_success w s input output m hr hw]
    | false => rw [mainRunBody_write_fail w s input output m hr hw]

lemma mainRunBody_gammaRightVal {M : Type} (w : World M) (s : ParsedState)
    (input output : String) :
    (mainRunBody w s input output).gammaRightVal =
      some (if s.gamma_scaling_right > mkRat 19 10 then mkRat 3 20
            else s.gamma_scaling_right) := by
  cases hr : w.readMesh input with
  | none => rw [mainRunBody_read_fail w s input output hr]
  | some m =>
    cases hw : w.writeOk (w.uniform_remeshing m s.min 10 true) output s.binary with
    | true => rw [mainRunBody_success w s input output m hr hw]
    | false => rw [mainRunBody_write_fail w s input output m hr hw]

lemma mainRunBody_gammaEchoed {M : Type} (w : World M) (s : ParsedState)
    (input output : String) :
    (mainRunBody w s input output).gammaEchoed =
      (s.verbose && (decide (s.channel_left = 0) && decide (s.channel_right = 0))) := by
  cases hr : w.readMesh input with
  | none => rw [mainRunBody_read_fail w s input output hr]
  | some m =>
    cases hw : w.writeOk (w.uniform_remeshing m s.min 10 true) output s.binary with
    | true => rw [mainRunBody_success w s input output m hr hw]
    | false => rw [mainRunBody_write_fail w s input output m hr hw]

lemma mainRunBody_adaptiveCalls {M : Type} (w : World M) (s : ParsedState)
    (input output : String) :
    (mainRunBody w s input output).adaptiveCalls = [] := by
  cases hr : w.readMesh input with
  | none => rw [mainRunBody_read_fail w s input output hr]
  | some m =>
    cases hw : w.writeOk (w.uniform_remeshing m s.min 10 true) output s.binary with
    | true => rw [mainRunBody_success w s input output m hr hw]
    | false => rw [mainRunBody_write_fail w s input output m hr hw]

lemma mainRunBody_outputMesh {M : Type} (w : World M) (s : ParsedState)
    (input output : String) :
    (mainRunBody w s input output).outputMesh =
      (match w.readMesh input with
       | none => none
       | some m =>
         if w.writeOk (w.uniform_remeshing m s.min 10 true) output s.binary then
           some (w.uniform_remeshing m s.min 10 true)
         else none) := by
  cases hr : w.readMesh input with
  | none => rw [mainRunBody_read_fail w s input output hr]
  | some m =>
    cases hw : w.writeOk (w.uniform_remeshing m s.min 10 true) output s.binary with
    | true =>
      rw [mainRunBody_success w s input output m hr hw]
      simp [hw]
    | false =>
      rw [mainRunBody_write_fail w s input output m hr hw]
      simp [hw]

lemma mainRunBody_exitCode {M : Type} (w : World M) (s : ParsedState)
    (input output : String) :
    (mainRunBody w s input output).exitCode =
      (match w.readMesh input with
       | none => 1
       | some m =>
         if w.writeOk (w.uniform_remeshing m s.min 10 true) output s.binary then 0
         else 1) := by
  cases hr : w.readMesh input with
  | none => rw [mainRunBody_read_fail w s input output hr]
  | some m =>
    cases hw : w.writeOk (w.uniform_remeshing m s.min 10 true) output s.binary with
    | true =>
      rw [mainRunBody_success w s input output m hr hw]
      simp [hw]
    | false =>
      rw [mainRunBody_write_fail w s input output m hr hw]
      simp [hw]

lemma mainRunBody_remeshCalls {M : Type} (w : World M) (s : ParsedState)
    (input output : String) :
    (mainRunBody w s input output).remeshCalls = [] ∨
      (mainRunBody w s input output).remeshCalls = [(s.min, 10, true)] := by
  cases hr : w.readMesh input with
  | none =>
    left
    rw [mainRunBody_read_fail w s input output hr]
  | some m =>
    cases hw : w.writeOk (w.uniform_remeshing m s.min 10 true) output s.binary with
    | true =>
      right
      rw [mainRunBody_success w s input output m hr hw]
    | false =>
      right
      rw [mainRunBody_write_fail w s input output m hr hw]

/-- Unpacking of validArgs: a valid invocation supplies both edge lengths
at or above 1e-6 and the side, input and output strings. -/
lemma validArgs_spec (a : Args) (hval : validArgs a = true) :
    ∃ mn mx ss ii oo, a.x = some mn ∧ a.y = some mx ∧ eps ≤ mn ∧ eps ≤ mx ∧
      a.s = some ss ∧ a.i = some ii ∧ a.o = some oo := by
  unfold validArgs at hval
  cases hax : a.x with
  | none => rw [hax] at hval; cases a.y <;> simp at hval
  | some mn =>
    cases hay : a.y with
    | none => rw [hax, hay] at hval; simp at hval
    | some mx =>
      rw [hax, hay] at hval
      simp only [Bool.and_eq_true, decide_eq_true_eq, Option.isSome_iff_exists] at hval
      obtain ⟨⟨⟨⟨hmn, hmx⟩, ss, hss⟩, ii, hii⟩, oo, hoo⟩ := hval
      exact ⟨mn, mx, ss, ii, oo, rfl, rfl, hmn, hmx, hss, hii, hoo⟩

/-- The parse of a valid invocation passes the argument check and runs
the body with the supplied input and output paths, whatever the
indeterminate residues junkMin and junkMax are. -/
lemma mainRun_parse_valid {M : Type} (w : World M) (a : Args) (jm jM : ℚ)
    (mn mx : ℚ) (ss ii oo : String)
    (hax : a.x = some mn) (hay : a.y = some mx) (hmn : eps ≤ mn) (hmx : eps ≤ mx)
    (hss : a.s = some ss) (hii : a.i = some ii) (hoo : a.o = some oo) :
    mainRun w (parseArgs a jm jM) = mainRunBody w (parseArgs a jm jM) ii oo := by
  apply mainRun_eq_body
  · simp [parseArgs, hax, hmn]
  · simp [parseArgs, hay, hmx]
  · simp [parseArgs, hss]
  · simp [parseArgs, hii]
  · simp [parseArgs, hoo]

/-! Concrete worlds and invocations used to instantiate the theorems. -/

/-- A world where every read succeeds (the mesh is modelled as the value
7), remeshing adds the iteration count, and every write succeeds. -/
def wOk : World ℕ :=
  { readMesh := fun _ => some 7
    uniform_remeshing := fun m _ it _ => m + it
    writeOk := fun _ _ _ => true }

/-- A world where every read fails with an IOException. -/
def wReadFail : World ℕ :=
  { readMesh := fun _ => none
    uniform_remeshing := fun m _ it _ => m + it
    writeOk := fun _ _ _ => true }

/-- A world where reads succeed and every write fails. -/
def wWriteFail : World ℕ :=
  { readMesh := fun _ => some 7
    uniform_remeshing := fun m _ it _ => m + it
    writeOk := fun _ _ _ => false }

/-- The example invocation of the usage text:
-x 0.5 -y 10 -s left -i head.ply -o head_left.ply -v. -/
def aExample : Args :=
  { x := some (mkRat 1 2), y := some 10, e := none, s := some "left"
    l := none, r := none, g := none, h := none
    i := some "head.ply", o := some "head_left.ply", v := true, b := false }

/-- An invocation that omits -x, so the local min keeps its indeterminate
initial value. -/
def aNoMin : Args :=
  { x := none, y := some 10, e := none, s := some "left"
    l := none, r := none, g := none, h := none
    i := some "head.ply", o := some "out.ply", v := false, b := false }

/-- A valid invocation with no optional parameters. -/
def aPlain : Args :=
  { x := some 1, y := some 10, e := none, s := some "left"
    l := none, r := none, g := none, h := none
    i := some "head.ply", o := some "out.ply", v := false, b := false }

/-- The invocation aPlain with every grading parameter changed: other
maximum length, explicit error, other side, explicit landmarks, explicit
gamma factors. -/
def aGraded : Args :=
  { x := some 1, y := some 20, e := some 5, s := some "right"
    l := some 3, r := some (-3), g := some 1, h := some 1
    i := some "head.ply", o := some "out.ply", v := false, b := false }

/-- A valid invocation supplying a positive maximum error below 1e-6. -/
def aSmallErr : Args :=
  { x := some 1, y := some 10, e := some (mkRat 1 10000000), s := some "left"
    l := none, r := none, g := none, h := none
    i := some "head.ply", o := some "out.ply", v := false, b := false }

/-- A valid invocation supplying a positive minimum edge length below
1e-6. -/
def aXsmall : Args :=
  { x := some (mkRat 1 2000000), y := some 10, e := none, s := some "left"
    l := none, r := none, g := none, h := none
    i := some "head.ply", o := some "out.ply", v := false, b := false }

/-- A valid invocation supplying a positive maximum edge length below
1e-6. -/
def aYsmall : Args :=
  { x := some 1, y := some (mkRat 1 2000000), e := none, s := some "left"
    l := none, r := none, g := none, h := none
    i := some "head.ply", o := some "out.ply", v := false, b := false }

/-- An invocation supplying a non-positive minimum edge length. -/
def aZeroMin : Args :=
  { x := some 0, y := some 10, e := none, s := some "left"
    l := none, r := none, g := none, h := none
    i := some "head.ply", o := some "out.ply", v := false, b := false }

/-- A valid invocation supplying gamma factors 2 (above the sentinel) and
1 (below the sentinel). -/
def aGamma : Args :=
  { x := some 1, y := some 10, e := none, s := some "left"
    l := none, r := none, g := some 2, h := some 1
    i := some "head.ply", o := some "out.ply", v := true, b := false }

/-- A valid parsed state with no optional parameters set. -/
def sValid : ParsedState :=
  { min := 1, max := 10, err := 0
    channel_left := 0, channel_right := 0
    gamma_scaling_left := 2, gamma_scaling_right := 2
    ear := some "left", input := some "head.ply", output := some "out.ply"
    verbose := false, binary := false }

/-- A valid verbose parsed state with a non-zero left landmark
coordinate. -/
def sLandmark : ParsedState :=
  { min := 1, max := 10, err := 0
    channel_left := 1, channel_right := 0
    gamma_scaling_left := 2, gamma_scaling_right := 2
    ear := some "left", input := some "head.ply", output := some "out.ply"
    verbose := true, binary := false }

/-! The claims. -/

/-- C1: main never invokes the curvature-adaptive landmark-graded
remesher (the adaptive_remeshing call is commented out); the only
remeshing call it can make is uniform remeshing with the minimum edge
length, 10 iterations and projection, so the sizing-field pipeline that
the claim describes does not produce the output.  Concretely, the example
invocation of the usage text runs uniform remeshing only and exits 0. -/
theorem C1_no_adaptive_pipeline :
    (∀ (M : Type) (w : World M) (s : ParsedState),
      (mainRun w s).adaptiveCalls = [] ∧
      ((mainRun w s).remeshCalls = [] ∨
        (mainRun w s).remeshCalls = [(s.min, 10, true)])) ∧
    (mainRun wOk (parseArgs aExample 0 0)).exitCode = 0 ∧
    (mainRun wOk (parseArgs aExample 0 0)).adaptiveCalls = [] ∧
    (mainRun wOk (parseArgs aExample 0 0)).remeshCalls = [(mkRat 1 2, 10, true)] := by
  constructor
  · intro M w s
    by_cases hg : s.min < eps ∨ s.max < eps ∨ s.ear = none ∨ s.input = none ∨
        s.output = none
    · rw [mainRun_usage w s hg]
      exact ⟨rfl, Or.inl rfl⟩
    · push_neg at hg
      obtain ⟨hm, hM, hear, hi, ho⟩ := hg
      rcases Option.eq_none_or_eq_some s.input with h | ⟨ii, hii⟩
      · exact absurd h hi
      rcases Option.eq_none_or_eq_some s.output with h | ⟨oo, hoo⟩
      · exact absurd h ho
      rw [mainRun_eq_body w s ii oo hm hM hear hii hoo]
      exact ⟨mainRunBody_adaptiveCalls w s ii oo, mainRunBody_remeshCalls w s ii oo⟩
  · exact ⟨by decide, rfl, by decide⟩

/-- C2: two valid invocations that agree on the minimum edge length, the
input path, the output path, the verbose flag and the binary flag - and
may differ arbitrarily in maximum length, maximum error, side, explicit
landmark coordinates and gamma factors - produce the identical output
mesh and exit code, whatever the indeterminate residues are. -/
theorem C2_output_depends_only_on_min {M : Type} (w : World M)
    (a1 a2 : Args) (jm1 jM1 jm2 jM2 : ℚ)
    (hx : a1.x = a2.x) (hi : a1.i = a2.i) (ho : a1.o = a2.o)
    (hv : a1.v = a2.v) (hb : a1.b = a2.b)
    (h1 : validArgs a1 = true) (h2 : validArgs a2 = true) :
    (mainRun w (parseArgs a1 jm1 jM1)).outputMesh
      = (mainRun w (parseArgs a2 jm2 jM2)).outputMesh ∧
    (mainRun w (parseArgs a1 jm1 jM1)).exitCode
      = (mainRun w (parseArgs a2 jm2 jM2)).exitCode := by
  obtain ⟨mn1, mx1, ss1, ii1, oo1, hax1, hay1, hmn1, hmx1, hss1, hii1, hoo1⟩ :=
    validArgs_spec a1 h1
  obtain ⟨mn2, mx2, ss2, ii2, oo2, hax2, hay2, hmn2, hmx2, hss2, hii2, hoo2⟩ :=
    validArgs_spec a2 h2
  have hmn12 : mn1 = mn2 := by
    have := hax1.symm.trans (hx.trans hax2)
    exact Option.some_injective _ this
  have hii12 : ii1 = ii2 := by
    have := hii1.symm.trans (hi.trans hii2)
    exact Option.some_injective _ this
  have hoo12 : oo1 = oo2 := by
    have := hoo1.symm.trans (ho.trans hoo2)
    exact Option.some_injective _ this
  rw [mainRun_parse_valid w a1 jm1 jM1 mn1 mx1 ss1 ii1 oo1 hax1 hay1 hmn1 hmx1
      hss1 hii1 hoo1,
    mainRun_parse_valid w a2 jm2 jM2 mn2 mx2 ss2 ii2 oo2 hax2 hay2 hmn2 hmx2
      hss2 hii2 hoo2]
  have e1 : (parseArgs a1 jm1 jM1).min = (parseArgs a2 jm2 jM2).min := by
    simp [parseArgs, hax1, hax2, hmn12]
  have e2 : (parseArgs a1 jm1 jM1).binary = (parseArgs a2 jm2 jM2).binary := by
    simp [parseArgs, hb]
  constructor
  · rw [mainRunBody_outputMesh, mainRunBody_outputMesh, hii12, hoo12, e1, e2]
  · rw [mainRunBody_exitCode, mainRunBody_exitCode, hii12, hoo12, e1, e2]

/-- Witness for C2: the plain invocation and the fully graded invocation
write the same mesh and exit with the same code. -/
theorem C2_witness :
    (mainRun wOk (parseArgs aPlain 0 0)).outputMesh
      = (mainRun wOk (parseArgs aGraded 5 5)).outputMesh ∧
    (mainRun wOk (parseArgs aPlain 0 0)).exitCode
      = (mainRun wOk (parseArgs aGraded 5 5)).exitCode :=
  C2_output_depends_only_on_min wOk aPlain aGraded 0 0 5 5 rfl rfl rfl rfl rfl
    (by decide) (by decide)

/-- C3: a gamma factor supplied on the command line is replaced by the
default 3/20 (0.15) when it is strictly greater than 19/10 (1.9), and is
used verbatim otherwise; the recorded effective gamma values of the run
show exactly this. -/
theorem C3_gamma_sentinel {M : Type} (w : World M) (a : Args) (jm jM gv hv : ℚ)
    (hval : validArgs a = true) (hg : a.g = some gv) (hh : a.h = some hv) :
    ((mkRat 19 10 < gv →
        (mainRun w (parseArgs a jm jM)).gammaLeftVal = some (mkRat 3 20)) ∧
     (gv ≤ mkRat 19 10 →
        (mainRun w (parseArgs a jm jM)).gammaLeftVal = some gv)) ∧
    ((mkRat 19 10 < hv →
        (mainRun w (parseArgs a jm jM)).gammaRightVal = some (mkRat 3 20)) ∧
     (hv ≤ mkRat 19 10 →
        (mainRun w (parseArgs a jm jM)).gammaRightVal = some hv)) := by
  obtain ⟨mn, mx, ss, ii, oo, hax, hay, hmn, hmx, hss, hii, hoo⟩ :=
    validArgs_spec a hval
  rw [mainRun_parse_valid w a jm jM mn mx ss ii oo hax hay hmn hmx hss hii hoo]
  rw [mainRunBody_gammaLeftVal, mainRunBody_gammaRightVal]
  have hgl : (parseArgs a jm jM).gamma_scaling_left = gv := by
    simp [parseArgs, hg]
  have hgr : (parseArgs a jm jM).gamma_scaling_right = hv := by
    simp [parseArgs, hh]
  rw [hgl, hgr]
  refine ⟨⟨fun h => ?_, fun h => ?_⟩, fun h => ?_, fun h => ?_⟩
  · rw [if_pos h]
  · rw [if_neg (not_lt.mpr h)]
  · rw [if_pos h]
  · rw [if_neg (not_lt.mpr h)]

/-- Witness for C3: gamma factors 2 and 1 give effective values 3/20 and
1. -/
theorem C3_witness :
    (mainRun wOk (parseArgs aGamma 0 0)).gammaLeftVal = some (mkRat 3 20) ∧
    (mainRun wOk (parseArgs aGamma 0 0)).gammaRightVal = some 1 :=
  ⟨(C3_gamma_sentinel wOk aGamma 0 0 2 1 (by decide) rfl rfl).1.1 (by decide),
   (C3_gamma_sentinel wOk aGamma 0 0 2 1 (by decide) rfl rfl).2.2 (by decide)⟩

/-- C4: an invocation that omits -x is not reliably rejected: min is an
uninitialized local in the source, and when its indeterminate residual
value passes the 1e-6 check (here the residue 1) the program reads the
input mesh, remeshes, writes the output and exits 0, instead of printing
the usage text and exiting 1 as the claim requires. -/
theorem C4_missing_min_not_rejected :
    aNoMin.x = none ∧
    (mainRun wOk (parseArgs aNoMin 1 1)).exitCode = 0 ∧
    (mainRun wOk (parseArgs aNoMin 1 1)).usagePrinted = false ∧
    (mainRun wOk (parseArgs aNoMin 1 1)).readsAttempted = ["head.ply"] ∧
    (mainRun wOk (parseArgs aNoMin 1 1)).writesAttempted = [("out.ply", false)] :=
  ⟨rfl, by decide, by decide, by decide, by decide⟩

/-- C5: an invocation with a non-positive supplied minimum edge length or
with no side argument is rejected at the argument check: the usage text
is printed, the exit code is 1, and no read, remeshing call or write is
ever attempted, whatever the indeterminate residues are. -/
theorem C5_reject_before_load {M : Type} (w : World M) (a : Args) (jm jM : ℚ)
    (hcase : (∃ v, a.x = some v ∧ v ≤ 0) ∨ a.s = none) :
    (mainRun w (parseArgs a jm jM)).exitCode = 1 ∧
    (mainRun w (parseArgs a jm jM)).usagePrinted = true ∧
    (mainRun w (parseArgs a jm jM)).readsAttempted = [] ∧
    (mainRun w (parseArgs a jm jM)).remeshCalls = [] ∧
    (mainRun w (parseArgs a jm jM)).writesAttempted = [] ∧
    (mainRun w (parseArgs a jm jM)).outputMesh = none := by
  have hg : (parseArgs a jm jM).min < eps ∨ (parseArgs a jm jM).max < eps ∨
      (parseArgs a jm jM).ear = none ∨ (parseArgs a jm jM).input = none ∨
      (parseArgs a jm jM).output = none := by
    rcases hcase with ⟨v, hxv, hv0⟩ | hs
    · left
      have hv : (parseArgs a jm jM).min = v := by simp [parseArgs, hxv]
      rw [hv]
      exact lt_of_le_of_lt hv0 (by decide)
    · right; right; left
      simp [parseArgs, hs]
  rw [mainRun_usage w _ hg]
  exact ⟨rfl, rfl, rfl, rfl, rfl, rfl⟩

/-- Witness for C5: a supplied minimum edge length of 0 is rejected with
exit code 1 and no read is attempted. -/
theorem C5_witness :
    (mainRun wOk (parseArgs aZeroMin 0 0)).exitCode = 1 ∧
    (mainRun wOk (parseArgs aZeroMin 0 0)).usagePrinted = true ∧
    (mainRun wOk (parseArgs aZeroMin 0 0)).readsAttempted = [] ∧
    (mainRun wOk (parseArgs aZeroMin 0 0)).remeshCalls = [] ∧
    (mainRun wOk (parseArgs aZeroMin 0 0)).writesAttempted = [] ∧
    (mainRun wOk (parseArgs aZeroMin 0 0)).outputMesh = none :=
  C5_reject_before_load wOk aZeroMin 0 0 (Or.inl ⟨0, rfl, by decide⟩)

/-- C6: on a valid parsed state, a failed mesh read yields exit code 1
with the read error message and neither remeshing nor a write is
attempted; a failed mesh write yields exit code 1 with the write error
message and no output mesh. -/
theorem C6_io_failure_handling {M : Type} (w : World M) (s : ParsedState)
    (ii oo : String)
    (hm : eps ≤ s.min) (hM : eps ≤ s.max) (hear : s.ear ≠ none)
    (hi : s.input = some ii) (ho : s.output = some oo) :
    (w.readMesh ii = none →
      (mainRun w s).exitCode = 1 ∧
      (mainRun w s).errorMessage = some "Failed to read mesh" ∧
      (mainRun w s).remeshCalls = [] ∧
      (mainRun w s).adaptiveCalls = [] ∧
      (mainRun w s).writesAttempted = [] ∧
      (mainRun w s).outputMesh = none) ∧
    (∀ m, w.readMesh ii = some m →
      w.writeOk (w.uniform_remeshing m s.min 10 true) oo s.binary = false →
      (mainRun w s).exitCode = 1 ∧
      (mainRun w s).errorMessage = some "Failed to write mesh" ∧
      (mainRun w s).outputMesh = none) := by
  constructor
  · intro hr
    rw [mainRun_eq_body w s ii oo hm hM hear hi ho,
      mainRunBody_read_fail w s ii oo hr]
    exact ⟨rfl, rfl, rfl, rfl, rfl, rfl⟩
  · intro m hr hw
    rw [mainRun_eq_body w s ii oo hm hM hear hi ho,
      mainRunBody_write_fail w s ii oo m hr hw]
    exact ⟨rfl, rfl, rfl⟩

/-- Witness for C6: a failing read and a failing write on the valid state
sValid. -/
theorem C6_witness :
    ((mainRun wReadFail sValid).exitCode = 1 ∧
     (mainRun wReadFail sValid).errorMessage = some "Failed to read mesh" ∧
     (mainRun wReadFail sValid).remeshCalls = [] ∧
     (mainRun wReadFail sValid).adaptiveCalls = [] ∧
     (mainRun wReadFail sValid).writesAttempted = [] ∧
     (mainRun wReadFail sValid).outputMesh = none) ∧
    ((mainRun wWriteFail sValid).exitCode = 1 ∧
     (mainRun wWriteFail sValid).errorMessage = some "Failed to write mesh" ∧
     (mainRun wWriteFail sValid).outputMesh = none) :=
  ⟨(C6_io_failure_handling wReadFail sValid "head.ply" "out.ply" (by decide)
      (by decide) (by decide) rfl rfl).1 rfl,
   (C6_io_failure_handling wWriteFail sValid "head.ply" "out.ply" (by decide)
      (by decide) (by decide) rfl rfl).2 7 rfl rfl⟩

/-- Shared helper: the effective maximum error of a run on a valid
invocation, by cases on the supplied -e value (lines 117-120 of the
source). -/
lemma errVal_parse_cases {M : Type} (w : World M) (a : Args) (jm jM mn : ℚ)
    (hval : validArgs a = true) (hax : a.x = some mn) :
    (a.e = none → (mainRun w (parseArgs a jm jM)).errVal = some mn) ∧
    (∀ ev, a.e = some ev → ev < eps →
      (mainRun w (parseArgs a jm jM)).errVal = some mn) ∧
    (∀ ev, a.e = some ev → eps ≤ ev →
      (mainRun w (parseArgs a jm jM)).errVal = some ev) := by
  obtain ⟨mn', mx, ss, ii, oo, hax', hay, hmn, hmx, hss, hii, hoo⟩ :=
    validArgs_spec a hval
  have hmn'' : mn' = mn := Option.some_injective _ (hax'.symm.trans hax)
  rw [mainRun_parse_valid w a jm jM mn' mx ss ii oo hax' hay hmn hmx hss hii hoo]
  rw [mainRunBody_errVal]
  have hminv : (parseArgs a jm jM).min = mn := by simp [parseArgs, hax]
  refine ⟨fun he => ?_, fun ev he hlt => ?_, fun ev he hge => ?_⟩
  · have herr : (parseArgs a jm jM).err = 0 := by simp [parseArgs, he]
    rw [herr, if_pos (by decide), hminv]
  · have herr : (parseArgs a jm jM).err = ev := by simp [parseArgs, he]
    rw [herr, if_pos hlt, hminv]
  · have herr : (parseArgs a jm jM).err = ev := by simp [parseArgs, he]
    rw [herr, if_neg (not_lt.mpr hge)]

/-- C7 counterexample: the supplied maximum error 1/10000000 is positive,
yet the run uses 1 (the minimum edge length) as its maximum error, so a
supplied positive maximum error is not always used. -/
theorem C7_counterexample :
    (0 : ℚ) < mkRat 1 10000000 ∧
    aSmallErr.e = some (mkRat 1 10000000) ∧
    (mainRun wOk (parseArgs aSmallErr 0 0)).errVal = some 1 ∧
    ¬ (mainRun wOk (parseArgs aSmallErr 0 0)).errVal = some (mkRat 1 10000000) :=
  ⟨by decide, rfl, by decide, by decide⟩

/-- C7 (amended): when no maximum error is supplied, or the supplied
value is below 1e-6, the maximum error used for the run equals the
supplied minimum edge length; when the supplied value is at least 1e-6,
that value is used. -/
theorem C7_err_defaulting {M : Type} (w : World M) (a : Args) (jm jM mn : ℚ)
    (hval : validArgs a = true) (hax : a.x = some mn) :
    (a.e = none → (mainRun w (parseArgs a jm jM)).errVal = some mn) ∧
    (∀ ev, a.e = some ev → ev < eps →
      (mainRun w (parseArgs a jm jM)).errVal = some mn) ∧
    (∀ ev, a.e = some ev → eps ≤ ev →
      (mainRun w (parseArgs a jm jM)).errVal = some ev) :=
  errVal_parse_cases w a jm jM mn hval hax

/-- Witness for C7 (amended): with no -e option and minimum edge length
1, the run uses maximum error 1. -/
theorem C7_witness :
    (mainRun wOk (parseArgs aPlain 0 0)).errVal = some 1 :=
  (C7_err_defaulting wOk aPlain 0 0 1 (by decide) rfl).1 rfl

/-- C8: on any valid parsed state whose mesh read succeeds, the only
remeshing call is uniform remeshing with the minimum edge length, exactly
10 iterations and the projection flag true; no adaptive call is made. -/
theorem C8_fixed_iteration_budget {M : Type} (w : World M) (s : ParsedState)
    (ii oo : String) (m : M)
    (hm : eps ≤ s.min) (hM : eps ≤ s.max) (hear : s.ear ≠ none)
    (hi : s.input = some ii) (ho : s.output = some oo)
    (hr : w.readMesh ii = some m) :
    (mainRun w s).remeshCalls = [(s.min, 10, true)] ∧
    (mainRun w s).adaptiveCalls = [] := by
  rw [mainRun_eq_body w s ii oo hm hM hear hi ho]
  cases hw : w.writeOk (w.uniform_remeshing m s.min 10 true) oo s.binary with
  | true =>
    rw [mainRunBody_success w s ii oo m hr hw]
    exact ⟨rfl, rfl⟩
  | false =>
    rw [mainRunBody_write_fail w s ii oo m hr hw]
    exact ⟨rfl, rfl⟩

/-- Witness for C8: the valid state sValid produces exactly the uniform
call with 10 iterations and projection true. -/
theorem C8_witness :
    (mainRun wOk sValid).remeshCalls = [(sValid.min, 10, true)] ∧
    (mainRun wOk sValid).adaptiveCalls = [] :=
  C8_fixed_iteration_budget wOk sValid "head.ply" "out.ply" 7 (by decide)
    (by decide) (by decide) rfl rfl rfl

/-- C9: on a valid parsed state the verbose block echoes the gamma
factors exactly when verbose is set and both explicit landmark
coordinates are zero, and the output mesh does not depend on the gamma
factors at all. -/
theorem C9_explicit_landmark_precedence {M : Type} (w : World M)
    (s : ParsedState) (ii oo : String) (gl gr : ℚ)
    (hm : eps ≤ s.min) (hM : eps ≤ s.max) (hear : s.ear ≠ none)
    (hi : s.input = some ii) (ho : s.output = some oo) :
    ((mainRun w s).gammaEchoed = true ↔
      (s.verbose = true ∧ s.channel_left = 0 ∧ s.channel_right = 0)) ∧
    (mainRun w { s with gamma_scaling_left := gl,
                        gamma_scaling_right := gr }).outputMesh
      = (mainRun w s).outputMesh := by
  constructor
  · rw [mainRun_eq_body w s ii oo hm hM hear hi ho, mainRunBody_gammaEchoed]
    simp only [Bool.and_eq_true, decide_eq_true_eq, and_assoc]
  · rw [mainRun_eq_body w s ii oo hm hM hear hi ho,
      mainRun_eq_body w { s with gamma_scaling_left := gl,
                                 gamma_scaling_right := gr } ii oo hm hM hear hi ho,
      mainRunBody_outputMesh, mainRunBody_outputMesh]

/-- Witness for C9: on the verbose state sLandmark with a non-zero left
landmark coordinate, the gamma factors are not echoed, and changing both
gamma factors leaves the output mesh unchanged. -/
theorem C9_witness :
    (((mainRun wOk sLandmark).gammaEchoed = true ↔
       (sLandmark.verbose = true ∧ sLandmark.channel_left = 0 ∧
        sLandmark.channel_right = 0)) ∧
     (mainRun wOk { sLandmark with gamma_scaling_left := 5,
                                   gamma_scaling_right := 7 }).outputMesh
       = (mainRun wOk sLandmark).outputMesh) :=
  C9_explicit_landmark_precedence wOk sLandmark "head.ply" "out.ply" 5 7
    (by decide) (by decide) (by decide) rfl rfl

/-- C10: the argument checks use the threshold 1e-6: a supplied minimum
or maximum edge length that is positive but below 1e-6 is rejected with
exit code 1 and the usage text, and a supplied maximum error that is
positive but below 1e-6 is silently replaced by the minimum edge
length. -/
theorem C10_threshold_below_1e6 {M : Type} (w : World M) (a : Args) (jm jM : ℚ) :
    (∀ v, a.x = some v → 0 < v → v < eps →
      (mainRun w (parseArgs a jm jM)).exitCode = 1 ∧
      (mainRun w (parseArgs a jm jM)).usagePrinted = true) ∧
    (∀ v, a.y = some v → 0 < v → v < eps →
      (mainRun w (parseArgs a jm jM)).exitCode = 1 ∧
      (mainRun w (parseArgs a jm jM)).usagePrinted = true) ∧
    (∀ mn ev, validArgs a = true → a.x = some mn → a.e = some ev →
      0 < ev → ev < eps →
      (mainRun w (parseArgs a jm jM)).errVal = some mn) := by
  refine ⟨fun v hxv _ hveps => ?_, fun v hyv _ hveps => ?_,
    fun mn ev hval hax hae _ heveps => ?_⟩
  · have hg : (parseArgs a jm jM).min < eps ∨ (parseArgs a jm jM).max < eps ∨
        (parseArgs a jm jM).ear = none ∨ (parseArgs a jm jM).input = none ∨
        (parseArgs a jm jM).output = none := by
      left
      have hv : (parseArgs a jm jM).min = v := by simp [parseArgs, hxv]
      rw [hv]; exact hveps
    rw [mainRun_usage w _ hg]
    exact ⟨rfl, rfl⟩
  · have hg : (parseArgs a jm jM).min < eps ∨ (parseArgs a jm jM).max < eps ∨
        (parseArgs a jm jM).ear = none ∨ (parseArgs a jm jM).input = none ∨
        (parseArgs a jm jM).output = none := by
      right; left
      have hv : (parseArgs a jm jM).max = v := by simp [parseArgs, hyv]
      rw [hv]; exact hveps
    rw [mainRun_usage w _ hg]
    exact ⟨rfl, rfl⟩
  · exact (errVal_parse_cases w a jm jM mn hval hax).2.1 ev hae heveps

/-- Witness for C10: a minimum of 1/2000000 and a maximum of 1/2000000
are rejected, and a maximum error of 1/10000000 is replaced by the
minimum edge length 1. -/
theorem C10_witness :
    ((mainRun wOk (parseArgs aXsmall 0 0)).exitCode = 1 ∧
     (mainRun wOk (parseArgs aXsmall 0 0)).usagePrinted = true) ∧
    ((mainRun wOk (parseArgs aYsmall 0 0)).exitCode = 1 ∧
     (mainRun wOk (parseArgs aYsmall 0 0)).usagePrinted = true) ∧
    (mainRun wOk (parseArgs aSmallErr 0 0)).errVal = some 1 :=
  ⟨(C10_threshold_below_1e6 wOk aXsmall 0 0).1 (mkRat 1 2000000) rfl (by decide)
      (by decide),
   (C10_threshold_below_1e6 wOk aYsmall 0 0).2.1 (mkRat 1 2000000) rfl (by decide)
      (by decide),
   (C10_threshold_below_1e6 wOk aSmallErr 0 0).2.2 1 (mkRat 1 10000000)
      (by decide) rfl rfl (by decide) (by decide)⟩

end HrtfMeshGrading
